import Mathlib

/-!
# Verification of `llvm/ee.py` (llvmpy Execution Engine bindings)

This file is a shallow embedding of the Python module `llvm/ee.py`, a thin
binding layer over LLVM's ExecutionEngine / TargetMachine facilities.

Modelling conventions:
* Native handles are `Nat`; the null handle is `0` (Python truthiness of a
  handle: `not tm` means `tm = 0`).
* The behaviour of the native layer (`llvmpy.api`, which is part of the
  repository but not under `src/`) is abstracted as a `Native` record of
  functions; the Python functions of `ee.py` are translated as Lean functions
  parameterised by a `Native`.
* Python exceptions become `Except PyExc`; functions whose bodies cannot raise
  keep plain codomains.
* Python objects that a method mutates (the native EngineBuilder configuration
  reached through `self._ptr`, the execution engine's global mappings) are
  modelled by records threaded functionally: a setter returns the updated
  record, mirroring the in-place native mutation plus `return self`.
* Python floats are claim-irrelevant here and are carried as an opaque `Int`
  stand-in.
-/

set_option autoImplicit false

/-- Byte strings (Python `bytes`), as lists of byte values. -/
abbrev ByteStr := List Nat

/-- `BO_BIG_ENDIAN` from the module's enumeration block. -/
def BO_BIG_ENDIAN : Nat := 0

/-- `BO_LITTLE_ENDIAN` from the module's enumeration block. -/
def BO_LITTLE_ENDIAN : Nat := 1

/-- The code-model enumeration mirrored from `api.llvm.CodeModel.Model`
(the module binds `CM_DEFAULT` .. `CM_LARGE`). -/
inductive CodeModel where
  | Default
  | JITDefault
  | Small
  | Kernel
  | Medium
  | Large
deriving DecidableEq, Repr

/-- The relocation-model enumeration mirrored from `api.llvm.Reloc.Model`
(the module binds `RELOC_DEFAULT` .. `RELOC_DYNAMIC_NO_PIC`). -/
inductive RelocModel where
  | Default
  | Static
  | PIC_
  | DynamicNoPIC
deriving DecidableEq, Repr

/-- `api.llvm.EngineKind.Kind` values used by `force_jit` / `force_interpreter`. -/
inductive EngineKind where
  | JIT
  | Interpreter
deriving DecidableEq, Repr

/-- `api.llvm.TargetMachine.CodeGenFileType` values used by the emit methods. -/
inductive CodeGenFileType where
  | CGFT_AssemblyFile
  | CGFT_ObjectFile
deriving DecidableEq, Repr

/-- A registered backend target, as observed through the native calls the
Python layer makes on it (`getName`, `getShortDescription`,
`hasTargetMachine`). -/
structure Target where
  name : String
  shortDescription : String
  hasTargetMachine : Bool
deriving DecidableEq, Repr

/-- The Python `GenericValue` wrapper: one opaque handle. -/
structure GenericValueObj where
  _ptr : Nat
deriving DecidableEq, Repr

/-- A `llvm.core` module object as seen from this file: one opaque handle. -/
structure ModuleObj where
  _ptr : Nat
deriving DecidableEq, Repr

/-- A value / global-variable / function object as seen from this file:
one opaque handle. -/
structure ValueObj where
  _ptr : Nat
deriving DecidableEq, Repr

/-- A `llvm.core` type object; `str` models what Python `str(ty)` returns,
which is the only way `ee.py` inspects a type. -/
structure TypeObj where
  _ptr : Nat
  str : String
deriving DecidableEq, Repr

/-- The Python `TargetMachine` wrapper: one opaque handle. -/
structure TargetMachineObj where
  _ptr : Nat
deriving DecidableEq, Repr

/-- The Python `EngineBuilder` wrapper together with the configuration of the
native builder its handle points to: the engine kind, optimization level and
machine attributes that the setter methods forward (`none` = never set through
this layer). -/
structure EngineBuilderObj where
  _ptr : Nat
  kind : Option EngineKind
  optLevel : Option Int
  mattrs : Option (List String)
deriving DecidableEq, Repr

/-- The Python `ExecutionEngine` wrapper together with the global mappings
registered through it (`addGlobalMapping` state of the native engine). -/
structure ExecutionEngineObj where
  _ptr : Nat
  globalMappings : List (Nat × Int)
deriving DecidableEq, Repr

/-- One positional argument of a raised `LLVMException`, distinguishing how
`ee.py` builds it: the error `BytesIO` object itself (`LLVMException(error)`),
its extracted contents (`LLVMException(error.getvalue())`), a plain string, or
a target object. -/
inductive ExcArg where
  | stream (contents : String)
  | bytes (contents : String)
  | str (s : String)
  | targetObj (name : String)
deriving DecidableEq, Repr

/-- The Python exceptions `ee.py` can raise: `assert` failures (with optional
message), `AttributeError` (carrying the missing attribute name),
a plain `Exception`, and `llvm.LLVMException` with its argument list. -/
inductive PyExc where
  | assertionError (msg : Option String)
  | attributeError (attr : String)
  | exception (msg : String)
  | llvmError (args : List ExcArg)
deriving DecidableEq, Repr

/-- The behaviour of the native layer (`llvmpy.api` / `llvmpy.extra`) as seen
through the calls `ee.py` makes.  Handles are `Nat` with `0` as null.  Fields
mirror one native entry point each; `lookupTripleErr` / `lookupArchErr` give
the message the corresponding failed `lookupTarget` writes into the error
stream, and `archTriple` gives `str(triple)` after the arch-based lookup has
filled in the `Triple` object. -/
structure Native where
  getDefaultTriple : String
  getHostCPUName : String
  lookupTargetTriple : String → Option Target
  lookupTripleErr : String → String
  lookupTargetArch : String → Option Target
  lookupArchErr : String → String
  archTriple : String → String
  createTargetMachine : Target → String → String → String → RelocModel → CodeModel → Int → Nat
  ebNew : Nat → Nat
  ebCreate : EngineBuilderObj → Nat
  ebCreateTM : EngineBuilderObj → Nat → Nat
  selectTarget0 : EngineBuilderObj → Nat
  selectTarget4 : EngineBuilderObj → String → String → String → List String → Nat
  CreateInt : Nat → Int → Bool → Nat
  CreateFloat : Int → Nat
  CreateDouble : Int → Nat
  CreatePointer : Int → Nat
  runFunction : Nat → Nat → List Nat → Nat
  addPassesToEmitFile : Nat → CodeGenFileType → Bool
  emitOutput : Nat → Nat → CodeGenFileType → ByteStr
  getDataLayoutStr : Nat → String
  apiHasAttr : String → Bool

/-- `GenericValue.int`: `CreateInt(ty._ptr, int(intval), False)`, wrapped. -/
def GenericValue.int (n : Native) (ty : TypeObj) (intval : Int) : GenericValueObj :=
  ⟨n.CreateInt ty._ptr intval false⟩

/-- `GenericValue.int_signed`: `CreateInt(ty._ptr, int(intval), True)`, wrapped. -/
def GenericValue.int_signed (n : Native) (ty : TypeObj) (intval : Int) : GenericValueObj :=
  ⟨n.CreateInt ty._ptr intval true⟩

/-- `GenericValue.real`: dispatches on `str(ty)`; any type other than
`float` / `double` raises `Exception('Unreachable')`. -/
def GenericValue.real (n : Native) (ty : TypeObj) (floatval : Int) :
    Except PyExc GenericValueObj :=
  if ty.str = "float" then Except.ok ⟨n.CreateFloat floatval⟩
  else if ty.str = "double" then Except.ok ⟨n.CreateDouble floatval⟩
  else Except.error (PyExc.exception "Unreachable")

/-- `GenericValue.pointer`: `CreatePointer(int(addr))`, wrapped. -/
def GenericValue.pointer (n : Native) (addr : Int) : GenericValueObj :=
  ⟨n.CreatePointer addr⟩

/-- `EngineBuilder.new`: wraps the handle of a fresh native builder for the
module. -/
def EngineBuilder.new (n : Native) (module : ModuleObj) : EngineBuilderObj :=
  ⟨n.ebNew module._ptr, none, none, none⟩

/-- `EngineBuilder.force_jit`: `setEngineKind(JIT)` then `return self`. -/
def EngineBuilder.force_jit (eb : EngineBuilderObj) : EngineBuilderObj :=
  { eb with kind := some EngineKind.JIT }

/-- `EngineBuilder.force_interpreter`: `setEngineKind(Interpreter)` then
`return self`. -/
def EngineBuilder.force_interpreter (eb : EngineBuilderObj) : EngineBuilderObj :=
  { eb with kind := some EngineKind.Interpreter }

/-- `EngineBuilder.opt`: `assert 0 <= level <= 3`, then `setOptLevel(level)`
and `return self`.  The bare `assert` carries no message. -/
def EngineBuilder.opt (eb : EngineBuilderObj) (level : Int) :
    Except PyExc EngineBuilderObj :=
  if 0 ≤ level ∧ level ≤ 3 then Except.ok { eb with optLevel := some level }
  else Except.error (PyExc.assertionError none)

/-- `EngineBuilder.mattrs`: `setMAttrs(string.split(','))` then `return self`. -/
def EngineBuilder.mattrs (eb : EngineBuilderObj) (s : String) : EngineBuilderObj :=
  { eb with mattrs := some (s.splitOn ",") }

/-- `EngineBuilder.create`: calls the native `create` (with the target
machine's handle when one is given) and wraps the resulting engine handle.
The second component is the builder after the call; the method body assigns
no attribute, so it is the builder unchanged. -/
def EngineBuilder.create (n : Native) (eb : EngineBuilderObj)
    (tm : Option TargetMachineObj) : ExecutionEngineObj × EngineBuilderObj :=
  match tm with
  | some t => (⟨n.ebCreateTM eb t._ptr, []⟩, eb)
  | none => (⟨n.ebCreate eb, []⟩, eb)

/-- `EngineBuilder.select_target`: no arguments, or the
`(triple, march, mcpu, mattrs)` quadruple with `mattrs.split(',')`. -/
def EngineBuilder.select_target (n : Native) (eb : EngineBuilderObj)
    (args : Option (String × String × String × String)) : TargetMachineObj :=
  match args with
  | some (triple, march, mcpu, mattrs) =>
      ⟨n.selectTarget4 eb triple march mcpu (mattrs.splitOn ",")⟩
  | none => ⟨n.selectTarget0 eb⟩

/-- `ExecutionEngine.new`: builds an `EngineBuilder`, optionally forces the
interpreter, and creates the engine. -/
def ExecutionEngine.new (n : Native) (module : ModuleObj)
    (force_interpreter : Bool) : ExecutionEngineObj :=
  let eb := EngineBuilder.new n module
  let eb := if force_interpreter then EngineBuilder.force_interpreter eb else eb
  (EngineBuilder.create n eb none).1

/-- `ExecutionEngine.run_function`: `runFunction(fn._ptr, [a._ptr ...])`,
wrapped as a `GenericValue`. -/
def ExecutionEngine.run_function (n : Native) (ee : ExecutionEngineObj)
    (fn : ValueObj) (args : List GenericValueObj) : GenericValueObj :=
  ⟨n.runFunction ee._ptr fn._ptr (args.map (fun a => a._ptr))⟩

/-- `ExecutionEngine.add_global_mapping`:
`assert addr >= 0, "Address cannot not be negative"` then
`addGlobalMapping(gvar._ptr, addr)` (modelled as recording the mapping). -/
def ExecutionEngine.add_global_mapping (ee : ExecutionEngineObj)
    (gvar : ValueObj) (addr : Int) : Except PyExc ExecutionEngineObj :=
  if 0 ≤ addr then
    Except.ok { ee with globalMappings := (gvar._ptr, addr) :: ee.globalMappings }
  else Except.error (PyExc.assertionError (some "Address cannot not be negative"))

/-- The four attribute names `initialize_target` looks up on the `api`
module: `'LLVMInitialize' + target + postfix` for each postfix. -/
def initNames (target : String) : List String :=
  ["Target", "TargetInfo", "TargetMC", "AsmPrinter"].map
    (fun pf => "LLVMInitialize" ++ target ++ pf)

/-- `initialize_target`: calls the four initializer attributes in order; a
missing attribute raises `AttributeError` unless `noraise`, in which case the
function returns `False`; otherwise it returns `True`. -/
def initialize_target (n : Native) (target : String) (noraise : Bool) :
    Except PyExc Bool :=
  match (initNames target).find? (fun s => !n.apiHasAttr s) with
  | some missing =>
      if noraise then Except.ok false else Except.error (PyExc.attributeError missing)
  | none => Except.ok true

/-- `print_registered_targets`: a pure native passthrough that prints to
stdout; no value, no error (the printing side effect is not modelled). -/
def print_registered_targets (_n : Native) : Unit := ()

/-- `get_host_cpu_name`: `api.llvm.sys.getHostCPUName()`. -/
def get_host_cpu_name (n : Native) : String :=
  n.getHostCPUName

/-- `get_default_triple`: `api.llvm.sys.getDefaultTargetTriple()`. -/
def get_default_triple (n : Native) : String :=
  n.getDefaultTriple

/-- The names of the module-level free functions of `llvm/ee.py`, in source
order (everything defined with `def` at module level). -/
def moduleFreeFunctions : List String :=
  ["initialize_target", "print_registered_targets",
   "get_host_cpu_name", "get_default_triple"]

/-- The body of `TargetMachine.new` after the triple/cpu defaulting: look the
target up by triple (the failed lookup's message sits in the error stream,
and the raised exception carries the stream object itself), require
`hasTargetMachine`, create the machine and require a non-null handle. -/
def TargetMachine.newResolved (n : Native) (triple cpu features : String)
    (opt : Int) (cm : CodeModel) (reloc : RelocModel) :
    Except PyExc TargetMachineObj :=
  match n.lookupTargetTriple triple with
  | none => Except.error (PyExc.llvmError [ExcArg.stream (n.lookupTripleErr triple)])
  | some target =>
      if !target.hasTargetMachine then
        Except.error (PyExc.llvmError
          [ExcArg.targetObj target.name, ExcArg.str "No target machine."])
      else
        let tm := n.createTargetMachine target triple cpu features reloc cm opt
        if tm = 0 then
          Except.error (PyExc.llvmError [ExcArg.str "Cannot create target machine"])
        else Except.ok ⟨tm⟩

/-- `TargetMachine.new`: defaults an empty (falsy) triple to the host's
default triple and an empty cpu to the host CPU name, then proceeds as the
lookup-by-triple body. -/
def TargetMachine.new (n : Native) (triple cpu features : String)
    (opt : Int) (cm : CodeModel) (reloc : RelocModel) :
    Except PyExc TargetMachineObj :=
  let triple := if triple = "" then get_default_triple n else triple
  let cpu := if cpu = "" then get_host_cpu_name n else cpu
  match n.lookupTargetTriple triple with
  | none => Except.error (PyExc.llvmError [ExcArg.stream (n.lookupTripleErr triple)])
  | some target =>
      if !target.hasTargetMachine then
        Except.error (PyExc.llvmError
          [ExcArg.targetObj target.name, ExcArg.str "No target machine."])
      else
        let tm := n.createTargetMachine target triple cpu features reloc cm opt
        if tm = 0 then
          Except.error (PyExc.llvmError [ExcArg.str "Cannot create target machine"])
        else Except.ok ⟨tm⟩

/-- `TargetMachine.lookup`: looks the target up by architecture name (a fresh
`Triple` object is filled in by the native lookup; `str(triple)` is what the
machine is created with); the failed lookup raises with `error.getvalue()`. -/
def TargetMachine.lookup (n : Native) (arch cpu features : String)
    (opt : Int) (cm : CodeModel) (reloc : RelocModel) :
    Except PyExc TargetMachineObj :=
  match n.lookupTargetArch arch with
  | none => Except.error (PyExc.llvmError [ExcArg.bytes (n.lookupArchErr arch)])
  | some target =>
      if !target.hasTargetMachine then
        Except.error (PyExc.llvmError
          [ExcArg.targetObj target.name, ExcArg.str "No target machine."])
      else
        let tm := n.createTargetMachine target (n.archTriple arch) cpu features reloc cm opt
        if tm = 0 then
          Except.error (PyExc.llvmError [ExcArg.str "Cannot create target machine"])
        else Except.ok ⟨tm⟩

/-- Modelled from the spec: `extra.make_raw_ostream_for_printing` is part of
the repository but not under `src/`.  Per the spec ("emit assembly or object
bytes for a module") and the emit methods' docstrings ("returns byte string"),
its `bytes()` accessor returns the accumulated byte string. -/
def RawOStream.bytes (contents : ByteStr) : ByteStr := contents

/-- Modelled from the spec: as with `RawOStream.bytes`, the stream's `str()`
accessor returns the accumulated byte string. -/
def RawOStream.str (contents : ByteStr) : ByteStr := contents

set_option linter.unusedVariables false in
/-- `TargetMachine._emit_file`: builds a pass manager with the machine's data
layout, calls `addPassesToEmitFile` — whose result is bound to `failed` but
never consulted, exactly as in the source — runs the passes, and returns the
stream contents (`os.bytes()` for object files, `os.str()` otherwise). -/
def TargetMachine._emit_file (n : Native) (self : TargetMachineObj)
    (module : Nat) (cgft : CodeGenFileType) : ByteStr :=
  let dataLayout := n.getDataLayoutStr self._ptr
  let failed := n.addPassesToEmitFile self._ptr cgft
  let contents := n.emitOutput self._ptr module cgft
  if cgft = CodeGenFileType.CGFT_ObjectFile then RawOStream.bytes contents
  else RawOStream.str contents

/-- `TargetMachine.emit_assembly`: `_emit_file(module._ptr, CGFT_AssemblyFile)`. -/
def TargetMachine.emit_assembly (n : Native) (self : TargetMachineObj)
    (module : ModuleObj) : ByteStr :=
  TargetMachine._emit_file n self module._ptr CodeGenFileType.CGFT_AssemblyFile

/-- `TargetMachine.emit_object`: `_emit_file(module._ptr, CGFT_ObjectFile)`. -/
def TargetMachine.emit_object (n : Native) (self : TargetMachineObj)
    (module : ModuleObj) : ByteStr :=
  TargetMachine._emit_file n self module._ptr CodeGenFileType.CGFT_ObjectFile

/-!
## A concrete native environment

`sampleNative` is used by the witness and counterexample theorems below.  It
registers an `X86` target (with machine-code support) under the host triple
and under the architecture name `x86`, a machine-less target `husk`, fails
machine creation for the cpu string `badcpu`, reports `addPassesToEmitFile`
failure for the target-machine handle `99`, and exposes only the four `X86`
initializer attributes.
-/

/-- A registered target with machine-code generation support. -/
def tgtX86 : Target := ⟨"x86", "32-bit X86", true⟩

/-- A registered target without machine-code generation support. -/
def tgtHusk : Target := ⟨"husk", "husk target", false⟩

/-- A concrete `Native` environment for evaluating the embedding. -/
def sampleNative : Native where
  getDefaultTriple := "x86_64-unknown-linux-gnu"
  getHostCPUName := "corei7"
  lookupTargetTriple := fun t =>
    if t = "x86_64-unknown-linux-gnu" then some tgtX86
    else if t = "husk-triple" then some tgtHusk
    else none
  lookupTripleErr := fun t => "no target for triple " ++ t
  lookupTargetArch := fun a =>
    if a = "x86" then some tgtX86
    else if a = "husk" then some tgtHusk
    else none
  lookupArchErr := fun a => "no target for arch " ++ a
  archTriple := fun _ => "x86_64-unknown-linux-gnu"
  createTargetMachine := fun _ _ cpu _ _ _ _ => if cpu = "badcpu" then 0 else 7
  ebNew := fun m => m + 100
  ebCreate := fun eb => eb._ptr + 1
  ebCreateTM := fun eb t => eb._ptr + t + 1
  selectTarget0 := fun eb => eb._ptr + 2
  selectTarget4 := fun eb _ _ _ _ => eb._ptr + 3
  CreateInt := fun ty _ _ => ty + 10
  CreateFloat := fun _ => 11
  CreateDouble := fun _ => 12
  CreatePointer := fun _ => 13
  runFunction := fun e f _ => e + f + 1
  addPassesToEmitFile := fun tm _ => tm == 99
  emitOutput := fun tm m _ => [tm, m]
  getDataLayoutStr := fun _ => "e"
  apiHasAttr := fun s => (initNames "X86").contains s

/-!
## Helper lemmas about target-machine construction
-/

/-- `TargetMachine.new` is the defaulting of triple and cpu followed by the
resolved body. -/
theorem TargetMachine.new_eq_resolved (n : Native) (s c f : String) (o : Int)
    (cm : CodeModel) (r : RelocModel) :
    TargetMachine.new n s c f o cm r =
      TargetMachine.newResolved n (if s = "" then get_default_triple n else s)
        (if c = "" then get_host_cpu_name n else c) f o cm r := rfl

/-- The resolved body succeeds exactly when a target is found, it has a
target machine, and native machine creation returns a non-null handle. -/
theorem TargetMachine.newResolved_ok_iff (n : Native) (t c f : String) (o : Int)
    (cm : CodeModel) (r : RelocModel) :
    (∃ x, TargetMachine.newResolved n t c f o cm r = Except.ok x) ↔
      ∃ tgt, n.lookupTargetTriple t = some tgt ∧ tgt.hasTargetMachine = true ∧
        n.createTargetMachine tgt t c f r cm o ≠ 0 := by
  simp only [TargetMachine.newResolved]
  cases h : n.lookupTargetTriple t with
  | none => simp
  | some tgt =>
    cases htm : tgt.hasTargetMachine with
    | false => simp [htm]
    | true =>
      by_cases hc : n.createTargetMachine tgt t c f r cm o = 0
      · simp [htm, hc]
      · simp [htm, hc]

/-- Failed lookup in the resolved body: the raised exception carries the
error stream holding the native message. -/
theorem TargetMachine.newResolved_err_notfound (n : Native) (t c f : String)
    (o : Int) (cm : CodeModel) (r : RelocModel)
    (h : n.lookupTargetTriple t = none) :
    TargetMachine.newResolved n t c f o cm r =
      Except.error (PyExc.llvmError [ExcArg.stream (n.lookupTripleErr t)]) := by
  simp only [TargetMachine.newResolved, h]

/-- A target without machine support in the resolved body: the raised
exception carries the target object and the fixed message. -/
theorem TargetMachine.newResolved_err_nomachine (n : Native) (t c f : String)
    (o : Int) (cm : CodeModel) (r : RelocModel) (tgt : Target)
    (h : n.lookupTargetTriple t = some tgt) (htm : tgt.hasTargetMachine = false) :
    TargetMachine.newResolved n t c f o cm r =
      Except.error (PyExc.llvmError
        [ExcArg.targetObj tgt.name, ExcArg.str "No target machine."]) := by
  simp only [TargetMachine.newResolved, h, htm]
  simp

/-- Null handle from native machine creation in the resolved body. -/
theorem TargetMachine.newResolved_err_createfail (n : Native) (t c f : String)
    (o : Int) (cm : CodeModel) (r : RelocModel) (tgt : Target)
    (h : n.lookupTargetTriple t = some tgt) (htm : tgt.hasTargetMachine = true)
    (hc : n.createTargetMachine tgt t c f r cm o = 0) :
    TargetMachine.newResolved n t c f o cm r =
      Except.error (PyExc.llvmError [ExcArg.str "Cannot create target machine"]) := by
  simp only [TargetMachine.newResolved, h, htm]
  simp [hc]

/-- A successfully constructed machine wraps a non-null handle. -/
theorem TargetMachine.newResolved_ok_nonnull (n : Native) (t c f : String)
    (o : Int) (cm : CodeModel) (r : RelocModel) (x : TargetMachineObj)
    (h : TargetMachine.newResolved n t c f o cm r = Except.ok x) : x._ptr ≠ 0 := by
  simp only [TargetMachine.newResolved] at h
  split at h
  · exact Except.noConfusion h
  · split at h
    · exact Except.noConfusion h
    · split at h
      · exact Except.noConfusion h
      · rename_i hc
        cases h
        exact hc

/-- `TargetMachine.lookup` succeeds exactly when a target is found for the
architecture, it has a target machine, and machine creation returns a
non-null handle. -/
theorem TargetMachine.lookup_ok_iff (n : Native) (a c f : String) (o : Int)
    (cm : CodeModel) (r : RelocModel) :
    (∃ x, TargetMachine.lookup n a c f o cm r = Except.ok x) ↔
      ∃ tgt, n.lookupTargetArch a = some tgt ∧ tgt.hasTargetMachine = true ∧
        n.createTargetMachine tgt (n.archTriple a) c f r cm o ≠ 0 := by
  simp only [TargetMachine.lookup]
  cases h : n.lookupTargetArch a with
  | none => simp
  | some tgt =>
    cases htm : tgt.hasTargetMachine with
    | false => simp [htm]
    | true =>
      by_cases hc : n.createTargetMachine tgt (n.archTriple a) c f r cm o = 0
      · simp [htm, hc]
      · simp [htm, hc]

/-- Failed arch lookup: the raised exception carries `error.getvalue()`. -/
theorem TargetMachine.lookup_err_notfound (n : Native) (a c f : String)
    (o : Int) (cm : CodeModel) (r : RelocModel)
    (h : n.lookupTargetArch a = none) :
    TargetMachine.lookup n a c f o cm r =
      Except.error (PyExc.llvmError [ExcArg.bytes (n.lookupArchErr a)]) := by
  simp only [TargetMachine.lookup, h]

/-- A machine-less target found by arch lookup. -/
theorem TargetMachine.lookup_err_nomachine (n : Native) (a c f : String)
    (o : Int) (cm : CodeModel) (r : RelocModel) (tgt : Target)
    (h : n.lookupTargetArch a = some tgt) (htm : tgt.hasTargetMachine = false) :
    TargetMachine.lookup n a c f o cm r =
      Except.error (PyExc.llvmError
        [ExcArg.targetObj tgt.name, ExcArg.str "No target machine."]) := by
  simp only [TargetMachine.lookup, h, htm]
  simp

/-- Null handle from machine creation after arch lookup. -/
theorem TargetMachine.lookup_err_createfail (n : Native) (a c f : String)
    (o : Int) (cm : CodeModel) (r : RelocModel) (tgt : Target)
    (h : n.lookupTargetArch a = some tgt) (htm : tgt.hasTargetMachine = true)
    (hc : n.createTargetMachine tgt (n.archTriple a) c f r cm o = 0) :
    TargetMachine.lookup n a c f o cm r =
      Except.error (PyExc.llvmError [ExcArg.str "Cannot create target machine"]) := by
  simp only [TargetMachine.lookup, h, htm]
  simp [hc]

/-- A machine successfully produced by `lookup` wraps a non-null handle. -/
theorem TargetMachine.lookup_ok_nonnull (n : Native) (a c f : String)
    (o : Int) (cm : CodeModel) (r : RelocModel) (x : TargetMachineObj)
    (h : TargetMachine.lookup n a c f o cm r = Except.ok x) : x._ptr ≠ 0 := by
  simp only [TargetMachine.lookup] at h
  split at h
  · exact Except.noConfusion h
  · split at h
    · exact Except.noConfusion h
    · split at h
      · exact Except.noConfusion h
      · rename_i hc
        cases h
        exact hc

/-!
## Claim theorems
-/

/-- Claim C1: for every call to `TargetMachine.new` and `TargetMachine.lookup`,
the call raises exactly when no registered target matches the (defaulted)
triple / architecture, or the found target lacks machine-code generation
support, or native machine creation returns a null handle; in the
lookup-failure case the exception carries the native error message (the error
stream for `new`, `error.getvalue()` for `lookup`), and in the remaining
failure cases the descriptive messages `"No target machine."` and
`"Cannot create target machine"`; if none of these occur the call returns a
`TargetMachine` and raises nothing. -/
theorem targetMachine_new_lookup_error_behavior :
    ∀ (n : Native) (s c f : String) (o : Int) (cm : CodeModel) (r : RelocModel),
      (((∃ x, TargetMachine.new n s c f o cm r = Except.ok x) ↔
          ∃ tgt, n.lookupTargetTriple (if s = "" then get_default_triple n else s) = some tgt
            ∧ tgt.hasTargetMachine = true
            ∧ n.createTargetMachine tgt (if s = "" then get_default_triple n else s)
                (if c = "" then get_host_cpu_name n else c) f r cm o ≠ 0)
        ∧ (n.lookupTargetTriple (if s = "" then get_default_triple n else s) = none →
            TargetMachine.new n s c f o cm r = Except.error (PyExc.llvmError
              [ExcArg.stream (n.lookupTripleErr (if s = "" then get_default_triple n else s))]))
        ∧ (∀ tgt, n.lookupTargetTriple (if s = "" then get_default_triple n else s) = some tgt →
            tgt.hasTargetMachine = false →
            TargetMachine.new n s c f o cm r = Except.error (PyExc.llvmError
              [ExcArg.targetObj tgt.name, ExcArg.str "No target machine."]))
        ∧ (∀ tgt, n.lookupTargetTriple (if s = "" then get_default_triple n else s) = some tgt →
            tgt.hasTargetMachine = true →
            n.createTargetMachine tgt (if s = "" then get_default_triple n else s)
              (if c = "" then get_host_cpu_name n else c) f r cm o = 0 →
            TargetMachine.new n s c f o cm r = Except.error (PyExc.llvmError
              [ExcArg.str "Cannot create target machine"])))
      ∧ (((∃ x, TargetMachine.lookup n s c f o cm r = Except.ok x) ↔
          ∃ tgt, n.lookupTargetArch s = some tgt ∧ tgt.hasTargetMachine = true
            ∧ n.createTargetMachine tgt (n.archTriple s) c f r cm o ≠ 0)
        ∧ (n.lookupTargetArch s = none →
            TargetMachine.lookup n s c f o cm r = Except.error (PyExc.llvmError
              [ExcArg.bytes (n.lookupArchErr s)]))
        ∧ (∀ tgt, n.lookupTargetArch s = some tgt → tgt.hasTargetMachine = false →
            TargetMachine.lookup n s c f o cm r = Except.error (PyExc.llvmError
              [ExcArg.targetObj tgt.name, ExcArg.str "No target machine."]))
        ∧ (∀ tgt, n.lookupTargetArch s = some tgt → tgt.hasTargetMachine = true →
            n.createTargetMachine tgt (n.archTriple s) c f r cm o = 0 →
            TargetMachine.lookup n s c f o cm r = Except.error (PyExc.llvmError
              [ExcArg.str "Cannot create target machine"]))) := by
  intro n s c f o cm r
  refine ⟨⟨?_, ?_, ?_, ?_⟩, ⟨?_, ?_, ?_, ?_⟩⟩
  · rw [TargetMachine.new_eq_resolved]
    exact TargetMachine.newResolved_ok_iff n _ _ f o cm r
  · intro h
    rw [TargetMachine.new_eq_resolved]
    exact TargetMachine.newResolved_err_notfound n _ _ f o cm r h
  · intro tgt h htm
    rw [TargetMachine.new_eq_resolved]
    exact TargetMachine.newResolved_err_nomachine n _ _ f o cm r tgt h htm
  · intro tgt h htm hc
    rw [TargetMachine.new_eq_resolved]
    exact TargetMachine.newResolved_err_createfail n _ _ f o cm r tgt h htm hc
  · exact TargetMachine.lookup_ok_iff n s c f o cm r
  · exact TargetMachine.lookup_err_notfound n s c f o cm r
  · exact TargetMachine.lookup_err_nomachine n s c f o cm r
  · exact TargetMachine.lookup_err_createfail n s c f o cm r

/-- Witness for C1: in the concrete environment, `new` on an unknown triple
raises the exception carrying the error stream with the native message, and
`lookup` on the registered `x86` architecture succeeds. -/
theorem targetMachine_new_lookup_error_behavior_witness :
    TargetMachine.new sampleNative "nosuch" "mycpu" "" 2 CodeModel.Default RelocModel.Default
      = Except.error (PyExc.llvmError [ExcArg.stream "no target for triple nosuch"])
    ∧ (∃ x, TargetMachine.lookup sampleNative "x86" "" "" 2 CodeModel.Default RelocModel.Default
      = Except.ok x) := by
  have h := targetMachine_new_lookup_error_behavior sampleNative "nosuch" "mycpu" ""
    2 CodeModel.Default RelocModel.Default
  have h2 := targetMachine_new_lookup_error_behavior sampleNative "x86" "" ""
    2 CodeModel.Default RelocModel.Default
  exact ⟨h.1.2.1 rfl, h2.2.1.mpr ⟨tgtX86, rfl, rfl, by decide⟩⟩

/-- Claim C2 (code bug): `_emit_file` binds the result of
`addPassesToEmitFile` to `failed` but never consults it, so when the native
call reports failure the emission continues and returns the stream contents
instead of propagating the failure.  Evaluated at the failing input: machine
handle `99`, for which `sampleNative` reports pass-addition failure. -/
theorem emit_ignores_addPassesToEmitFile_failure :
    sampleNative.addPassesToEmitFile 99 CodeGenFileType.CGFT_AssemblyFile = true
    ∧ sampleNative.addPassesToEmitFile 99 CodeGenFileType.CGFT_ObjectFile = true
    ∧ TargetMachine.emit_assembly sampleNative ⟨99⟩ ⟨3⟩ = [99, 3]
    ∧ TargetMachine.emit_object sampleNative ⟨99⟩ ⟨3⟩ = [99, 3] := by
  exact ⟨rfl, rfl, rfl, rfl⟩

/-- Claim C3: `EngineBuilder.opt` validates `0 <= level <= 3` and fails with
an assertion error outside that range, forwarding `level` unchanged otherwise;
`ExecutionEngine.add_global_mapping` validates `addr >= 0` and fails with an
assertion error on negative addresses, forwarding the mapping unchanged
otherwise. -/
theorem opt_and_add_global_mapping_validate :
    (∀ (eb : EngineBuilderObj) (level : Int),
      (0 ≤ level ∧ level ≤ 3 →
        EngineBuilder.opt eb level = Except.ok { eb with optLevel := some level })
      ∧ (¬(0 ≤ level ∧ level ≤ 3) →
        EngineBuilder.opt eb level = Except.error (PyExc.assertionError none)))
    ∧ (∀ (ee : ExecutionEngineObj) (gvar : ValueObj) (addr : Int),
      (0 ≤ addr → ExecutionEngine.add_global_mapping ee gvar addr =
        Except.ok { ee with globalMappings := (gvar._ptr, addr) :: ee.globalMappings })
      ∧ (addr < 0 → ExecutionEngine.add_global_mapping ee gvar addr =
        Except.error (PyExc.assertionError (some "Address cannot not be negative")))) := by
  constructor
  · intro eb level
    constructor
    · intro h
      simp [EngineBuilder.opt, h]
    · intro h
      simp [EngineBuilder.opt, h]
  · intro ee gvar addr
    constructor
    · intro h
      simp [ExecutionEngine.add_global_mapping, h]
    · intro h
      simp [ExecutionEngine.add_global_mapping, not_le.mpr h]

/-- Witness for C3: level 2 is accepted and forwarded, level 5 is rejected;
address 7 is accepted and forwarded, address -1 is rejected. -/
theorem opt_and_add_global_mapping_validate_witness :
    EngineBuilder.opt ⟨1, none, none, none⟩ 2 = Except.ok ⟨1, none, some 2, none⟩
    ∧ EngineBuilder.opt ⟨1, none, none, none⟩ 5 =
        Except.error (PyExc.assertionError none)
    ∧ ExecutionEngine.add_global_mapping ⟨2, []⟩ ⟨3⟩ 7 = Except.ok ⟨2, [(3, 7)]⟩
    ∧ ExecutionEngine.add_global_mapping ⟨2, []⟩ ⟨3⟩ (-1) =
        Except.error (PyExc.assertionError (some "Address cannot not be negative")) := by
  have h := opt_and_add_global_mapping_validate
  exact ⟨(h.1 ⟨1, none, none, none⟩ 2).1 (by decide),
         (h.1 ⟨1, none, none, none⟩ 5).2 (by decide),
         (h.2 ⟨2, []⟩ ⟨3⟩ 7).1 (by decide),
         (h.2 ⟨2, []⟩ ⟨3⟩ (-1)).2 (by decide)⟩

/-- Counterexample to claim C4 as stated: both operations the claim names as
non-raising do raise.  `GenericValue.real` on a type that is neither `float`
nor `double` raises `Exception('Unreachable')`, and `initialize_target` with
`noraise` left `False` on a target whose initializer attributes are absent
raises `AttributeError` carrying the first missing attribute name. -/
theorem module_error_space_counterexample :
    GenericValue.real sampleNative ⟨1, "i32"⟩ 0 =
      Except.error (PyExc.exception "Unreachable")
    ∧ initialize_target sampleNative "NoSuch" false =
      Except.error (PyExc.attributeError "LLVMInitializeNoSuchTarget") := by
  exact ⟨rfl, rfl⟩

/-- Claim C4 (amended): besides the three target errors of
`TargetMachine.new` / `lookup` and the assertion errors of the validated
preconditions, `initialize_target` raises `AttributeError` when `noraise` is
`False` and a required native initializer attribute is missing (and only
then), and `GenericValue.real` raises `Exception('Unreachable')` on any type
other than `float` / `double` (and only then); with `noraise` set, and on
`float` / `double` types, both complete without raising, and these are the
only error-producing operations outside the target constructors. -/
theorem module_error_space_amended :
    (∀ (n : Native) (t : String), ∃ b, initialize_target n t true = Except.ok b)
    ∧ (∀ (n : Native) (t : String) (nr : Bool) (e : PyExc),
        initialize_target n t nr = Except.error e →
          nr = false ∧ ∃ a, e = PyExc.attributeError a)
    ∧ (∀ (n : Native) (t : String),
        initialize_target n t false = Except.ok true ↔
          (initNames t).all n.apiHasAttr = true)
    ∧ (∀ (n : Native) (t : String) (missing : String),
        (initNames t).find? (fun s => !n.apiHasAttr s) = some missing →
          initialize_target n t false = Except.error (PyExc.attributeError missing))
    ∧ (∀ (n : Native) (t : String),
        (initNames t).all n.apiHasAttr = false →
          ∃ missing, missing ∈ initNames t ∧ n.apiHasAttr missing = false ∧
            initialize_target n t false = Except.error (PyExc.attributeError missing))
    ∧ (∀ (n : Native) (ty : TypeObj) (v : Int),
        ty.str = "float" ∨ ty.str = "double" →
          ∃ gv, GenericValue.real n ty v = Except.ok gv)
    ∧ (∀ (n : Native) (ty : TypeObj) (v : Int),
        ty.str ≠ "float" → ty.str ≠ "double" →
          GenericValue.real n ty v = Except.error (PyExc.exception "Unreachable")) := by
  refine ⟨?_, ?_, ?_, ?_, ?_, ?_, ?_⟩
  · intro n t
    simp only [initialize_target]
    cases h : (initNames t).find? (fun s => !n.apiHasAttr s) with
    | none => exact ⟨true, rfl⟩
    | some missing => exact ⟨false, rfl⟩
  · intro n t nr e h
    simp only [initialize_target] at h
    cases hf : (initNames t).find? (fun s => !n.apiHasAttr s) with
    | none =>
      rw [hf] at h
      exact Except.noConfusion h
    | some missing =>
      rw [hf] at h
      cases nr with
      | true => exact Except.noConfusion h
      | false =>
        refine ⟨rfl, missing, ?_⟩
        cases h
        rfl
  · intro n t
    simp only [initialize_target]
    cases hf : (initNames t).find? (fun s => !n.apiHasAttr s) with
    | none =>
      simp only [List.find?_eq_none, Bool.not_eq_true'] at hf
      simp only [List.all_eq_true]
      constructor
      · intro _ x hx
        have h2 := hf x hx
        simpa using h2
      · intro _
        trivial
    | some missing =>
      have hmem := List.mem_of_find?_eq_some hf
      have hp := List.find?_some hf
      simp only [Bool.not_eq_true'] at hp
      constructor
      · intro h
        exact Except.noConfusion h
      · intro h
        rw [List.all_eq_true] at h
        rw [h missing hmem] at hp
        exact Bool.noConfusion hp
  · intro n t missing hf
    simp only [initialize_target]
    rw [hf]
    rfl
  · intro n t hall
    have hsome : ((initNames t).find? (fun s => !n.apiHasAttr s)).isSome := by
      rw [List.find?_isSome]
      rw [List.all_eq_false] at hall
      obtain ⟨x, hx, hpx⟩ := hall
      exact ⟨x, hx, by simpa using hpx⟩
    obtain ⟨missing, hf⟩ := Option.isSome_iff_exists.mp hsome
    have hp := List.find?_some hf
    refine ⟨missing, List.mem_of_find?_eq_some hf, by simpa using hp, ?_⟩
    simp only [initialize_target]
    rw [hf]
    rfl
  · intro n ty v h
    rcases h with h | h
    · exact ⟨⟨n.CreateFloat v⟩, by simp [GenericValue.real, h]⟩
    · by_cases hf : ty.str = "float"
      · exact ⟨⟨n.CreateFloat v⟩, by simp [GenericValue.real, hf]⟩
      · exact ⟨⟨n.CreateDouble v⟩, by simp [GenericValue.real, hf, h]⟩
  · intro n ty v h1 h2
    simp [GenericValue.real, h1, h2]

/-- Witness for C4 (amended): a `float` type is accepted, an `i16` type
raises `Unreachable`, initializing the registered `X86` target with `noraise`
left `False` completes returning `True`, and initializing the unregistered
`Bogus` target with `noraise` left `False` raises `AttributeError` carrying
the first missing initializer attribute. -/
theorem module_error_space_amended_witness :
    (∃ gv, GenericValue.real sampleNative ⟨1, "float"⟩ 3 = Except.ok gv)
    ∧ GenericValue.real sampleNative ⟨1, "i16"⟩ 3 =
        Except.error (PyExc.exception "Unreachable")
    ∧ initialize_target sampleNative "X86" false = Except.ok true
    ∧ initialize_target sampleNative "Bogus" false =
        Except.error (PyExc.attributeError "LLVMInitializeBogusTarget") := by
  have h := module_error_space_amended
  exact ⟨h.2.2.2.2.2.1 sampleNative ⟨1, "float"⟩ 3 (Or.inl rfl),
         h.2.2.2.2.2.2 sampleNative ⟨1, "i16"⟩ 3 (by decide) (by decide),
         (h.2.2.1 sampleNative "X86").mpr (by decide),
         h.2.2.2.1 sampleNative "Bogus" "LLVMInitializeBogusTarget" rfl⟩

/-- Claim C5: `emit_assembly` and `emit_object` both return the emitted
output accumulated in the raw output stream as a byte string (`ByteStr`):
`emit_assembly` through the stream's `str()` accessor and `emit_object`
through its `bytes()` accessor. -/
theorem emit_assembly_object_return_byte_strings :
    ∀ (n : Native) (tm : TargetMachineObj) (m : ModuleObj),
      TargetMachine.emit_assembly n tm m =
        RawOStream.str (n.emitOutput tm._ptr m._ptr CodeGenFileType.CGFT_AssemblyFile)
      ∧ TargetMachine.emit_object n tm m =
        RawOStream.bytes (n.emitOutput tm._ptr m._ptr CodeGenFileType.CGFT_ObjectFile) := by
  intro n tm m
  exact ⟨rfl, rfl⟩

/-- Claim C6: `EngineBuilder.create` returns an `ExecutionEngine` whose
stored handle is exactly the handle produced by the native builder's `create`
call (the target machine's handle being passed when one is given), with fresh
engine-side state, and the builder itself is unchanged by the call. -/
theorem engineBuilder_create_wraps_native_handle :
    ∀ (n : Native) (eb : EngineBuilderObj) (tm : Option TargetMachineObj),
      ((EngineBuilder.create n eb tm).1._ptr =
        match tm with
        | some t => n.ebCreateTM eb t._ptr
        | none => n.ebCreate eb)
      ∧ (EngineBuilder.create n eb tm).1.globalMappings = []
      ∧ (EngineBuilder.create n eb tm).2 = eb := by
  intro n eb tm
  cases tm with
  | some t => exact ⟨rfl, rfl, rfl⟩
  | none => exact ⟨rfl, rfl, rfl⟩

/-- Modelled from the spec: the native `llvmpy.api` layer is part of the
repository but not under `src/`.  The spec's data-model invariant — "handle is
non-null and was produced by a successful native call" — is recorded here for
the native constructors that `ee.py` wraps without a null check (the checked,
fallible calls `lookupTarget` / `createTargetMachine` are modelled fallibly
instead). -/
def NativeOK (n : Native) : Prop :=
  (∀ t v s, n.CreateInt t v s ≠ 0) ∧
  (∀ v, n.CreateFloat v ≠ 0) ∧
  (∀ v, n.CreateDouble v ≠ 0) ∧
  (∀ a, n.CreatePointer a ≠ 0) ∧
  (∀ m, n.ebNew m ≠ 0) ∧
  (∀ eb, n.ebCreate eb ≠ 0) ∧
  (∀ eb t, n.ebCreateTM eb t ≠ 0) ∧
  (∀ eb, n.selectTarget0 eb ≠ 0) ∧
  (∀ eb a b c d, n.selectTarget4 eb a b c d ≠ 0) ∧
  (∀ e f a, n.runFunction e f a ≠ 0)

/-- Claim C7: every `GenericValue`, `EngineBuilder`, `ExecutionEngine` and
`TargetMachine` object returned by the module's constructors and factory
methods wraps a non-null handle produced by a successful native call; the
target-machine constructors, whose native calls can fail, raise instead of
returning a null-handle wrapper. -/
theorem constructors_return_nonnull_handles :
    ∀ (n : Native), NativeOK n →
      (∀ ty v, (GenericValue.int n ty v)._ptr ≠ 0)
      ∧ (∀ ty v, (GenericValue.int_signed n ty v)._ptr ≠ 0)
      ∧ (∀ ty v gv, GenericValue.real n ty v = Except.ok gv → gv._ptr ≠ 0)
      ∧ (∀ a, (GenericValue.pointer n a)._ptr ≠ 0)
      ∧ (∀ m, (EngineBuilder.new n m)._ptr ≠ 0)
      ∧ (∀ eb tm, (EngineBuilder.create n eb tm).1._ptr ≠ 0)
      ∧ (∀ eb args, (EngineBuilder.select_target n eb args)._ptr ≠ 0)
      ∧ (∀ m fi, (ExecutionEngine.new n m fi)._ptr ≠ 0)
      ∧ (∀ ee fn args, (ExecutionEngine.run_function n ee fn args)._ptr ≠ 0)
      ∧ (∀ s c f o cm r x, TargetMachine.new n s c f o cm r = Except.ok x → x._ptr ≠ 0)
      ∧ (∀ a c f o cm r x, TargetMachine.lookup n a c f o cm r = Except.ok x → x._ptr ≠ 0) := by
  intro n hok
  obtain ⟨hint, hfl, hdb, hptr, hnew, hcr, hcrtm, hsel0, hsel4, hrun⟩ := hok
  refine ⟨fun ty v => hint ty._ptr v false,
          fun ty v => hint ty._ptr v true,
          ?_,
          fun a => hptr a,
          fun m => hnew m._ptr,
          ?_,
          ?_,
          ?_,
          ?_,
          ?_,
          ?_⟩
  · intro ty v gv h
    by_cases h1 : ty.str = "float"
    · simp only [GenericValue.real, h1, if_pos] at h
      cases h
      exact hfl v
    · by_cases h2 : ty.str = "double"
      · simp only [GenericValue.real, h1, h2, if_neg, if_pos] at h
        simp at h
        cases h
        exact hdb v
      · simp [GenericValue.real, h1, h2] at h
  · intro eb tm
    cases tm with
    | some t => exact hcrtm eb t._ptr
    | none => exact hcr eb
  · intro eb args
    cases args with
    | some quad =>
      obtain ⟨a, b, c, d⟩ := quad
      exact hsel4 eb a b c (d.splitOn ",")
    | none => exact hsel0 eb
  · intro m fi
    cases fi with
    | false => exact hcr (EngineBuilder.new n m)
    | true => exact hcr (EngineBuilder.force_interpreter (EngineBuilder.new n m))
  · intro ee fn args
    exact hrun ee._ptr fn._ptr (args.map (fun x => x._ptr))
  · intro s c f o cm r x h
    rw [TargetMachine.new_eq_resolved] at h
    exact TargetMachine.newResolved_ok_nonnull n _ _ f o cm r x h
  · intro a c f o cm r x h
    exact TargetMachine.lookup_ok_nonnull n a c f o cm r x h

/-- `sampleNative` satisfies the spec's non-null invariant for the unchecked
native constructors. -/
theorem sampleNative_ok : NativeOK sampleNative := by
  refine ⟨?_, ?_, ?_, ?_, ?_, ?_, ?_, ?_, ?_, ?_⟩ <;> intros <;>
    simp only [sampleNative] <;> omega

/-- Witness for C7: concrete constructors in `sampleNative` return wrappers
with non-null handles. -/
theorem constructors_return_nonnull_handles_witness :
    (GenericValue.pointer sampleNative 5)._ptr ≠ 0
    ∧ (EngineBuilder.new sampleNative ⟨3⟩)._ptr ≠ 0
    ∧ (ExecutionEngine.new sampleNative ⟨3⟩ true)._ptr ≠ 0 := by
  have h := constructors_return_nonnull_handles sampleNative sampleNative_ok
  exact ⟨h.2.2.2.1 5, h.2.2.2.2.1 ⟨3⟩, h.2.2.2.2.2.2.2.1 ⟨3⟩ true⟩

/-- Counterexample to claim C8 as stated: the module has four module-level
free functions, not three — `print_registered_targets` is the fourth. -/
theorem module_free_functions_counterexample :
    moduleFreeFunctions.length = 4
    ∧ moduleFreeFunctions.length ≠ 3
    ∧ "print_registered_targets" ∈ moduleFreeFunctions := by
  decide

/-- Claim C8 (amended): the module's external interface contains exactly four
module-level free functions — target initialization, printing the registered
targets, the host CPU name, and the host's default target triple — in
addition to the methods of the four wrapper classes. -/
theorem module_free_functions_are_exactly_four :
    moduleFreeFunctions.length = 4
    ∧ moduleFreeFunctions.Nodup
    ∧ "initialize_target" ∈ moduleFreeFunctions
    ∧ "print_registered_targets" ∈ moduleFreeFunctions
    ∧ "get_host_cpu_name" ∈ moduleFreeFunctions
    ∧ "get_default_triple" ∈ moduleFreeFunctions := by
  decide

/-- Claim C9: the convenience constructor `ExecutionEngine.new` is equivalent
to the explicit builder chain — `EngineBuilder.new(m).create()` when the
interpreter is not forced, and
`EngineBuilder.new(m).force_interpreter().create()` when it is. -/
theorem executionEngine_new_refines_builder_chain :
    ∀ (n : Native) (m : ModuleObj),
      ExecutionEngine.new n m false =
        (EngineBuilder.create n (EngineBuilder.new n m) none).1
      ∧ ExecutionEngine.new n m true =
        (EngineBuilder.create n
          (EngineBuilder.force_interpreter (EngineBuilder.new n m)) none).1 := by
  intro n m
  exact ⟨rfl, rfl⟩

/-- Claim C10: `TargetMachine.new` replaces an empty (falsy) triple by the
host's default triple and an empty cpu by the host CPU name before the target
lookup, and passes non-empty triple and cpu arguments through to the resolved
lookup-and-create body unchanged. -/
theorem targetMachine_new_defaults_triple_and_cpu :
    ∀ (n : Native) (f : String) (o : Int) (cm : CodeModel) (r : RelocModel),
      (∀ t c, t ≠ "" → c ≠ "" →
        TargetMachine.new n t c f o cm r = TargetMachine.newResolved n t c f o cm r)
      ∧ (∀ c, TargetMachine.new n "" c f o cm r =
          TargetMachine.new n (get_default_triple n) c f o cm r)
      ∧ (∀ t, TargetMachine.new n t "" f o cm r =
          TargetMachine.new n t (get_host_cpu_name n) f o cm r) := by
  intro n f o cm r
  refine ⟨?_, ?_, ?_⟩
  · intro t c ht hc
    rw [TargetMachine.new_eq_resolved, if_neg ht, if_neg hc]
  · intro c
    rw [TargetMachine.new_eq_resolved, TargetMachine.new_eq_resolved]
    simp
  · intro t
    rw [TargetMachine.new_eq_resolved, TargetMachine.new_eq_resolved]
    simp

/-- Witness for C10: with non-empty triple and cpu the call coincides with
the resolved body, and an empty triple resolves to the host default triple. -/
theorem targetMachine_new_defaults_witness :
    TargetMachine.new sampleNative "t1" "c1" "" 2 CodeModel.Default RelocModel.Default =
      TargetMachine.newResolved sampleNative "t1" "c1" "" 2 CodeModel.Default RelocModel.Default
    ∧ TargetMachine.new sampleNative "" "c1" "" 2 CodeModel.Default RelocModel.Default =
      TargetMachine.new sampleNative "x86_64-unknown-linux-gnu" "c1" "" 2
        CodeModel.Default RelocModel.Default := by
  have h := targetMachine_new_defaults_triple_and_cpu sampleNative "" 2
    CodeModel.Default RelocModel.Default
  exact ⟨h.1 "t1" "c1" (by decide) (by decide), h.2.1 "c1"⟩
